import Mathlib

/-!
# playwright-scraping: a verification development

A shallow embedding of `src/scrape.js` and `src/utils.js`.

* JavaScript values: `null` and `undefined` are `Option.none`; a JavaScript
  number is a `JSNum` (NaN, the two infinities, or an exact rational: rounding
  to a double is not modelled, and `-0` is identified with `0`).
* The rendered document is data: an `Item` is one listing container with the
  nodes the selectors of `scrapePageContent` look for.
* The browser, the file system and the network are a `World`: an oracle that
  says which waits resolve and which operations succeed.  A rejected promise or
  a thrown exception is `Except.error`.
* A run of the main function is the list of `Event`s it performs.
-/

namespace Scraper

/-! ## JavaScript primitives -/

/-- ECMAScript `WhiteSpace` and `LineTerminator` code points: the characters
that `String.prototype.trim` strips and that `StringToNumber` skips. -/
def isJsWhiteSpace (c : Char) : Bool :=
  let n := c.toNat
  n == 0x09 || n == 0x0A || n == 0x0B || n == 0x0C || n == 0x0D || n == 0x20 ||
  n == 0xA0 || n == 0x1680 || (0x2000 ≤ n && n ≤ 0x200A) || n == 0x2028 ||
  n == 0x2029 || n == 0x202F || n == 0x205F || n == 0x3000 || n == 0xFEFF

/-- `String.prototype.trim` on the list of characters. -/
def trimChars (cs : List Char) : List Char :=
  ((cs.dropWhile isJsWhiteSpace).reverse.dropWhile isJsWhiteSpace).reverse

/-- `String.prototype.trim`. -/
def jsTrim (s : String) : String := String.mk (trimChars s.data)

/-- A JavaScript number. -/
inductive JSNum where
  | nan
  | negInf
  | posInf
  | fin (q : ℚ)
  deriving DecidableEq

/-- Value of a digit character in a radix up to 16 (`none` when it is not a
digit of that radix). -/
def digitValue (radix : Nat) (c : Char) : Option Nat :=
  let n := c.toNat
  let v : Option Nat :=
    if 48 ≤ n ∧ n ≤ 57 then some (n - 48)
    else if 97 ≤ n ∧ n ≤ 102 then some (n - 87)
    else if 65 ≤ n ∧ n ≤ 70 then some (n - 55)
    else none
  match v with
  | some d => if d < radix then some d else none
  | none => none

/-- Reads a whole list of characters as digits of the radix, most significant
first, continuing from the accumulator; `none` when a character is not a
digit. -/
def readDigits (radix : Nat) : List Char → Nat → Option Nat
  | [], acc => some acc
  | c :: cs, acc =>
    match digitValue radix c with
    | some d => readDigits radix cs (acc * radix + d)
    | none => none

/-- A decimal digit character. -/
def isDecDigit (c : Char) : Bool := (digitValue 10 c).isSome

/-- `ExponentPart_opt` at the end of a decimal literal: nothing, or `e`/`E`,
an optional sign and at least one decimal digit.  The result is the
exponent. -/
def readExponent : List Char → Option ℤ
  | [] => some 0
  | c :: rest =>
    if c = 'e' ∨ c = 'E' then
      match rest with
      | [] => none
      | '+' :: ds => if ds = [] then none else (readDigits 10 ds 0).map Int.ofNat
      | '-' :: ds => if ds = [] then none else (readDigits 10 ds 0).map (fun n => - Int.ofNat n)
      | ds => (readDigits 10 ds 0).map Int.ofNat
    else none

/-- The mathematical value `m * 10 ^ k`: an integer computed among the
naturals when `k` is not negative, a quotient otherwise. -/
def scale10 (m : Nat) (k : ℤ) : ℚ :=
  if 0 ≤ k then ((m * 10 ^ k.toNat : ℕ) : ℚ)
  else (m : ℚ) / ((10 ^ (-k).toNat : ℕ) : ℚ)

/-- `StrUnsignedDecimalLiteral` other than `Infinity`: the mathematical value
of `digits`, `digits.digits?`, `.digits`, each with an optional exponent. -/
def readUnsignedDecimal (cs : List Char) : Option ℚ :=
  let intPart := cs.takeWhile isDecDigit
  let rest := cs.dropWhile isDecDigit
  let fracPart : List Char :=
    match rest with
    | '.' :: r => r.takeWhile isDecDigit
    | _ => []
  let tail : List Char :=
    match rest with
    | '.' :: r => r.dropWhile isDecDigit
    | _ => rest
  if intPart = [] ∧ fracPart = [] then none
  else
    match readDigits 10 (intPart ++ fracPart) 0, readExponent tail with
    | some m, some e => some (scale10 m (e - (fracPart.length : ℤ)))
    | _, _ => none

/-- `StrDecimalLiteral` without its sign. -/
def readUnsigned (cs : List Char) : Option JSNum :=
  if cs = "Infinity".data then some JSNum.posInf
  else (readUnsignedDecimal cs).map JSNum.fin

/-- Negation of a JavaScript number. -/
def JSNum.neg : JSNum → JSNum
  | .nan => .nan
  | .negInf => .posInf
  | .posInf => .negInf
  | .fin q => .fin (-q)

/-- `StrNumericLiteral`: a binary, octal or hexadecimal integer literal
(unsigned), or a signed decimal literal. -/
def readNumericLiteral (cs : List Char) : Option JSNum :=
  match cs with
  | '0' :: p :: ds =>
    if p = 'x' ∨ p = 'X' then
      if ds = [] then none else (readDigits 16 ds 0).map (fun n => JSNum.fin n)
    else if p = 'o' ∨ p = 'O' then
      if ds = [] then none else (readDigits 8 ds 0).map (fun n => JSNum.fin n)
    else if p = 'b' ∨ p = 'B' then
      if ds = [] then none else (readDigits 2 ds 0).map (fun n => JSNum.fin n)
    else readUnsigned cs
  | '+' :: rest => readUnsigned rest
  | '-' :: rest => (readUnsigned rest).map JSNum.neg
  | _ => readUnsigned cs

/-- ECMAScript `StringToNumber`: white space is trimmed, the empty string is
`0`, a `StrNumericLiteral` is its value and anything else is NaN. -/
def stringToNumber (s : String) : JSNum :=
  let cs := trimChars s.data
  if cs = [] then JSNum.fin 0
  else
    match readNumericLiteral cs with
    | some v => v
    | none => JSNum.nan

/-- `Number(v)` for `v` the result of `getAttribute`: `null` converts to `0`,
a string goes through `StringToNumber`. -/
def jsNumber : Option String → JSNum
  | none => JSNum.fin 0
  | some s => stringToNumber s

/-! ## Init: the total page count (`src/scrape.js`, lines 221-235) -/

/-- The pagination element as `document.querySelector(paginationPath)` sees
it: only its `length` attribute is read (`none` when the attribute is
missing). -/
structure PaginationElement where
  length : Option String

/-- The callback evaluated in the page to read the number of pages:
`paginationElement ? Number(paginationElement.getAttribute("length")) : 1`. -/
def totalPages : Option PaginationElement → JSNum
  | some paginationElement => jsNumber paginationElement.length
  | none => JSNum.fin 1

/-! ## Errors -/

/-- A thrown exception or a rejected promise. -/
inductive JSError where
  /-- `TypeError`: a property of `null` or `undefined` is read or
  destructured. -/
  | typeError
  /-- The `TimeoutError` of Playwright: the wait named by `what` (a selector,
  or the name of the waiting call) did not resolve within its bound. -/
  | timeout (what : String)
  /-- The `Error` built in the `else` branch of `navigateToNextPage`, whose
  message carries the page number and the current URL. -/
  | cantNavigate (nbPage : Nat) (url : String)
  /-- A failure of the file system or of the network. -/
  | io (what : String)
  deriving DecidableEq

/-! ## The rendered document and the extractor (`scrapePageContent`) -/

/-- The card sub-element `.v-card.o-announ-card` of a listing item, with the
nodes the extractor queries inside it. -/
structure Card where
  /-- Result of `querySelector(".o-announ-card-image img")`: `none` when there is
  no image node, otherwise the value of `getAttribute("src")` (itself `none`
  when the attribute is missing). -/
  img : Option (Option String)
  /-- Result of `querySelector("h3.o-announ-card-title")`: `none` when there is no
  title node, otherwise its `textContent`. -/
  title : Option String
  /-- `textContent` of the nodes matched by `span.price > span > div`. -/
  price : List String
  /-- `textContent` of the chips matched by
  `div.col.py-0.px-0.my-1 > span.v-chip`. -/
  infos : List String
  /-- `textContent` of the spans matched by
  `.mb-1.d-flex.flex-column.flex-gap-1.line-height-1 > span`. -/
  others : List String
  deriving DecidableEq

/-- One element matched by `searchContainerPath`. -/
structure Item where
  /-- Value of `getAttribute("id")`. -/
  id : Option String
  /-- Result of `querySelector(".v-card.o-announ-card")`. -/
  card : Option Card
  deriving DecidableEq

/-- The `price` object of a scraped product. -/
structure Price where
  value : String
  unit : String
  deriving DecidableEq

/-- A scraped product, the object literal returned by the per-item callback. -/
structure Product where
  id : Option String
  img : Option String
  title : String
  price : Price
  infos : List String
  state : String
  timeAgo : String
  deriving DecidableEq

/-- The expression `nodes?.[k]?.textContent.trim() ?? ""` on a node list given
by the `textContent` of its nodes. -/
def textAt (nodes : List String) (k : Nat) : String :=
  match nodes.get? k with
  | some t => jsTrim t
  | none => ""

/-- The callback of `[...items].map` (lines 100-133): `undefined` (`none`)
when the item has no card; a `TypeError` when the image node or the title node
is `null`, since `imgEl.getAttribute` and `titleEl.textContent` are read
unguarded; the product otherwise. -/
def extractItem (item : Item) : Except JSError (Option Product) :=
  match item.card with
  | some product =>
    match product.img with
    | none => .error .typeError
    | some src =>
      match product.title with
      | none => .error .typeError
      | some text =>
        .ok (some {
          id := item.id
          img := src
          title := jsTrim text
          price := { value := textAt product.price 0, unit := textAt product.price 1 }
          infos := product.infos.map jsTrim
          state := textAt product.others 0
          timeAgo := textAt product.others 1 })
  | none => .ok none

/-- The function evaluated in the page (lines 98-134): `Array.prototype.map`
of `extractItem` over the items in document order; an exception thrown for one
item aborts the whole evaluation. -/
def extractProducts : List Item → Except JSError (List (Option Product))
  | [] => .ok []
  | item :: items =>
    match extractItem item with
    | .error e => .error e
    | .ok p =>
      match extractProducts items with
      | .error e => .error e
      | .ok ps => .ok (p :: ps)

/-! ## The scroll loop (`scrollDownUntilNoMoreContent`, lines 56-72) -/

/-- Scroll distance of one timer tick. -/
def distance : Nat := 100

/-- The `setInterval` callback iterated: `h k` is `document.body.scrollHeight`
as measured by tick `k` (ticks are numbered from 1).  With `k` ticks done and
`totalHeight` scrolled so far, the next tick measures the height, adds
`distance` and clears the timer when `totalHeight >= scrollHeight`.  The result
is the number of the tick that clears the timer, `none` when `fuel` ticks do
not reach it. -/
def scrollLoop (h : Nat → Nat) : Nat → Nat → Nat → Option Nat
  | 0, _, _ => none
  | fuel + 1, k, totalHeight =>
    let scrollHeight := h (k + 1)
    let totalHeight := totalHeight + distance
    if totalHeight ≥ scrollHeight then some (k + 1)
    else scrollLoop h fuel (k + 1) totalHeight

/-- The scroll loop from its initial state `totalHeight = 0`. -/
def scrollSteps (h : Nat → Nat) (fuel : Nat) : Option Nat := scrollLoop h fuel 0 0

/-! ## The tabular export (`saveToCsvFile`, `src/utils.js` lines 29-60) -/

/-- One object handed to `csvWriter.writeRecords`. -/
structure CsvRecord where
  id : Option String
  img : Option String
  title : String
  price : String
  infos : String
  others : String
  deriving DecidableEq

/-- The callback of `products.map` in `saveToCsvFile` on a product object. -/
def toCsvRecord (product : Product) : CsvRecord :=
  { id := product.id
    img := product.img
    title := product.title
    price := product.price.value ++ " " ++ product.price.unit
    infos := ", ".intercalate product.infos
    others := product.state ++ " " ++ product.timeAgo }

/-- The `products.map` of `saveToCsvFile` (lines 44-54): destructuring an
`undefined` entry throws a `TypeError`, which aborts the map. -/
def csvRecords : List (Option Product) → Except JSError (List CsvRecord)
  | [] => .ok []
  | none :: _ => .error .typeError
  | some product :: products =>
    match csvRecords products with
    | .error e => .error e
    | .ok records => .ok (toCsvRecord product :: records)

/-! ## Constants of `src/scrape.js` -/

def baseURL : String := "https://www.ouedkniss.com"

def productType : String := "informatique-ordinateur-portable"

def filter : String := "?hasPrice=true&hasPictures=true"

def url : String := baseURL ++ "/" ++ productType ++ filter

def searchContainerPath : String := ".search .v-lazy:nth-child(4) .search-view-item"

def paginationPath : String := ".search-view-pagination .pagination"

def nextPageLinkPath : String := paginationPath ++ " .v-pagination__next"

def resultsDir : String := "results/" ++ productType

/-- The two settings of the script that the run depends on.  In the source
they are the constants `numberOfPagesToScrape = 1` and
`withDownloadingImages = true`. -/
structure Config where
  numberOfPagesToScrape : Nat
  withDownloadingImages : Bool

/-- The settings as they stand in the source. -/
def sourceConfig : Config := { numberOfPagesToScrape := 1, withDownloadingImages := true }

/-! ## The world outside the script -/

/-- What the browser shows while the loop of the main function is at page
number `i`. -/
structure PageView where
  /-- Value of `page.url()`. -/
  url : String
  /-- Whether `waitForSelector(searchContainerPath)` resolves during the scroll. -/
  containerAppears : Bool
  /-- The scroll height measured by each tick of the scroll loop. -/
  heights : Nat → Nat
  /-- Whether `waitForLoadState("networkidle")` resolves. -/
  networkIdle : Bool
  /-- The elements matched by `searchContainerPath` once the page is scrolled. -/
  items : List Item
  /-- Whether the next-page control can be located:
  `waitForSelector(nextPageLinkPath)` resolves. -/
  nextControl : Bool
  /-- Whether the click on the next-page control resolves. -/
  nextClick : Bool
  /-- Whether the listing container is rendered after the click. -/
  containerReappears : Bool

/-- The browser, the file system and the network during one run. -/
structure World where
  /-- Whether `page.goto(url)` resolves. -/
  gotoOk : Bool
  /-- Whether `waitForSelector(paginationPath)` resolves. -/
  paginationAppears : Bool
  /-- Result of `document.querySelector(paginationPath)` at Init. -/
  pagination : Option PaginationElement
  /-- The page shown at each page number. -/
  view : Nat → PageView
  /-- Number of timer ticks that fit in the time bound of `waitForFunction`. -/
  scrollBudget : Nat
  /-- Whether `fs.mkdirSync` succeeds. -/
  mkdirOk : Bool
  /-- Whether the `fs.writeFileSync` of the JSON file succeeds. -/
  jsonWriteOk : Bool
  /-- Whether `csvWriter.writeRecords` succeeds. -/
  csvWriteOk : Bool
  /-- Outcome of `downloadImages` (an external collaborator, not modelled
  further). -/
  download : List (Option Product) → Except JSError Unit

/-- What a run does that can be observed from outside. -/
inductive Event where
  | goto (url : String)
  | scrapePageContent (nbPage : Nat)
  | navigateToNextPage (nbPage : Nat)
  | saveData (products : List (Option Product))
  | mkdir (path : String)
  | writeJson (filename : String) (products : List (Option Product))
  | writeCsv (filename : String) (records : List CsvRecord)
  | downloadImages (path : String) (products : List (Option Product))
  | consoleError (error : JSError)
  | browserClose
  | processExit (code : Nat)
  deriving DecidableEq

/-- `page.waitForSelector(selector)`: resolves when the element appears,
rejects with a `TimeoutError` otherwise. -/
def waitForSelector (appears : Bool) (selector : String) : Except JSError Unit :=
  if appears then .ok () else .error (.timeout selector)

/-! ## `scrapePageContent` (lines 46-76 and 84-143) -/

/-- `scrollDownUntilNoMoreContent`: after the `End` key press (which has no
outcome to model), waits for the listing container, runs the scroll loop inside
`waitForFunction` (a loop that does not stop within the time bound is a
`TimeoutError`), then waits for the network to be idle. -/
def scrollDownUntilNoMoreContent (w : World) (nbPage : Nat) : Except JSError Unit :=
  match waitForSelector (w.view nbPage).containerAppears searchContainerPath with
  | .error e => .error e
  | .ok _ =>
    match scrollSteps (w.view nbPage).heights w.scrollBudget with
    | none => .error (.timeout "waitForFunction")
    | some _ =>
      if (w.view nbPage).networkIdle then .ok () else .error (.timeout "networkidle")

/-- `scrapePageContent`: scroll to exhaustion, then evaluate the extractor in
the page. -/
def scrapePageContent (w : World) (nbPage : Nat) : Except JSError (List (Option Product)) :=
  match scrollDownUntilNoMoreContent w nbPage with
  | .error e => .error e
  | .ok _ => extractProducts (w.view nbPage).items

/-! ## `navigateToNextPage` (lines 151-174) -/

/-- The object returned by `page.locator(selector)`. -/
structure Locator where
  selector : String

/-- `page.locator(selector)` builds a locator without looking at the page. -/
def locator (selector : String) : Locator := { selector := selector }

/-- Truthiness of a locator in `if (nextPageLink)`: an object is truthy. -/
def Locator.truthy (_l : Locator) : Bool := true

/-- `navigateToNextPage`: wait for the next-page control, build its locator,
and when the locator is truthy click it while waiting for the listing
container (`Promise.all` rejects when one of the two rejects; the click is
looked at first); otherwise throw the error that carries the page number and
the URL. -/
def navigateToNextPage (w : World) (nbPage : Nat) : Except JSError Unit :=
  match waitForSelector (w.view nbPage).nextControl nextPageLinkPath with
  | .error e => .error e
  | .ok _ =>
    let nextPageLink := locator nextPageLinkPath
    if nextPageLink.truthy then
      if (w.view nbPage).nextClick then
        waitForSelector (w.view nbPage).containerReappears searchContainerPath
      else .error (.timeout nextPageLink.selector)
    else .error (.cantNavigate nbPage (w.view nbPage).url)

/-! ## Persistence (`saveData`, `saveToJsonFile`, `saveToCsvFile`) -/

/-- `saveToJsonFile`: one `fs.writeFileSync` of the serialised products. -/
def saveToJsonFile (w : World) (filename : String) (products : List (Option Product)) :
    List Event × Except JSError Unit :=
  if w.jsonWriteOk then ([.writeJson filename products], .ok ())
  else ([], .error (.io filename))

/-- `saveToCsvFile`: the records are built first, by `products.map`; only then
are they written. -/
def saveToCsvFile (w : World) (filename : String) (products : List (Option Product)) :
    List Event × Except JSError Unit :=
  match csvRecords products with
  | .error e => ([], .error e)
  | .ok records =>
    if w.csvWriteOk then ([.writeCsv filename records], .ok ())
    else ([], .error (.io filename))

/-- `saveData` (lines 181-200): create the two directories, write the JSON
file, write the CSV file, then download the images when the setting asks for
it.  The first failure ends it. -/
def saveData (cfg : Config) (w : World) (productType : String)
    (products : List (Option Product)) : List Event × Except JSError Unit :=
  let imagesPath := resultsDir ++ "/images"
  let filename := resultsDir ++ "/" ++ productType
  if w.mkdirOk then
    match saveToJsonFile w (filename ++ ".json") products with
    | (t₁, .error e) => (.mkdir resultsDir :: .mkdir imagesPath :: t₁, .error e)
    | (t₁, .ok _) =>
      match saveToCsvFile w (filename ++ ".csv") products with
      | (t₂, .error e) => (.mkdir resultsDir :: .mkdir imagesPath :: (t₁ ++ t₂), .error e)
      | (t₂, .ok _) =>
        if cfg.withDownloadingImages then
          (.mkdir resultsDir :: .mkdir imagesPath :: (t₁ ++ t₂ ++ [.downloadImages imagesPath products]),
            w.download products)
        else (.mkdir resultsDir :: .mkdir imagesPath :: (t₁ ++ t₂), .ok ())
  else ([], .error (.io resultsDir))

/-! ## The main function (lines 205-281) -/

/-- The comparison `i <= x` between the loop counter and a JavaScript number:
false against NaN. -/
def JSNum.natLe (i : Nat) : JSNum → Bool
  | .nan => false
  | .negInf => false
  | .posInf => true
  | .fin q => decide ((i : ℚ) ≤ q)

/-- The comparison `i < x` between the loop counter and a JavaScript number. -/
def JSNum.natLt (i : Nat) : JSNum → Bool
  | .nan => false
  | .negInf => false
  | .posInf => true
  | .fin q => decide ((i : ℚ) < q)

/-- The call `Math.min(a, x)` for a natural number `a`: NaN when `x` is NaN. -/
def mathMin (a : Nat) : JSNum → JSNum
  | .nan => .nan
  | .negInf => .negInf
  | .posInf => .fin a
  | .fin q => .fin (if (a : ℚ) ≤ q then (a : ℚ) else q)

/-- The `for` loop of the main function (lines 252-259) from counter `i` on,
with `products` accumulated so far.  `nbPages` is the constant
`Math.min(numberOfPagesToScrape, totalPages)`; it is written out at each test
so that the recursion is seen to end, the counter never passing
`numberOfPagesToScrape`.  The result is the calls made and the accumulated
products, or the error of the first call that fails. -/
def pageLoop (w : World) (numberOfPagesToScrape : Nat) (totalPages : JSNum) (i : Nat)
    (products : List (Option Product)) : List Event × Except JSError (List (Option Product)) :=
  if h : JSNum.natLe i (mathMin numberOfPagesToScrape totalPages) = true then
    match scrapePageContent w i with
    | .error e => ([.scrapePageContent i], .error e)
    | .ok currentPageProducts =>
      if JSNum.natLt i (mathMin numberOfPagesToScrape totalPages) then
        match navigateToNextPage w i with
        | .error e => ([.scrapePageContent i, .navigateToNextPage i], .error e)
        | .ok _ =>
          let r := pageLoop w numberOfPagesToScrape totalPages (i + 1)
            (products ++ currentPageProducts)
          (.scrapePageContent i :: .navigateToNextPage i :: r.1, r.2)
      else
        let r := pageLoop w numberOfPagesToScrape totalPages (i + 1)
          (products ++ currentPageProducts)
        (.scrapePageContent i :: r.1, r.2)
  else ([], .ok products)
termination_by numberOfPagesToScrape + 1 - i
decreasing_by
  all_goals
    have hle : i ≤ numberOfPagesToScrape := by
      cases totalPages with
      | nan => simp [mathMin, JSNum.natLe] at h
      | negInf => simp [mathMin, JSNum.natLe] at h
      | posInf => simpa [mathMin, JSNum.natLe] using h
      | fin q =>
        simp only [mathMin, JSNum.natLe, decide_eq_true_eq] at h
        split at h
        · exact_mod_cast h
        · rename_i hq
          have hq2 : (i : ℚ) ≤ numberOfPagesToScrape := le_trans h (le_of_lt (not_le.mp hq))
          exact_mod_cast hq2
    omega

/-- The body of the `try` block (lines 216-272). -/
def mainTry (cfg : Config) (w : World) : List Event × Except JSError Unit :=
  if w.gotoOk then
    match waitForSelector w.paginationAppears paginationPath with
    | .error e => ([.goto url], .error e)
    | .ok _ =>
      match pageLoop w cfg.numberOfPagesToScrape (totalPages w.pagination) 1 [] with
      | (t₁, .error e) => (.goto url :: t₁, .error e)
      | (t₁, .ok products) =>
        let r := saveData cfg w productType products
        (.goto url :: (t₁ ++ .saveData products :: r.1), r.2)
  else ([.goto url], .error (.timeout url))

/-- The main function once the browser and its page exist: the `try` block,
the `catch` that logs the error, and the `finally` that closes the browser and
exits with status 1. -/
def main (cfg : Config) (w : World) : List Event :=
  let r := mainTry cfg w
  let caught : List Event :=
    match r.2 with
    | .error e => [.consoleError e]
    | .ok _ => []
  r.1 ++ caught ++ [.browserClose, .processExit 1]

/-! ## Observations on a run, used to state the properties -/

/-- A call of `scrapePageContent`: one page visit. -/
def Event.isVisit : Event → Bool
  | .scrapePageContent _ => true
  | _ => false

/-- A call of `navigateToNextPage`. -/
def Event.isNavigate : Event → Bool
  | .navigateToNextPage _ => true
  | _ => false

/-- A call of `saveData`, the persistence collaborator. -/
def Event.isSaveData : Event → Bool
  | .saveData _ => true
  | _ => false

/-- An event that only the `for` loop produces. -/
def Event.isLoop : Event → Bool
  | .scrapePageContent _ => true
  | .navigateToNextPage _ => true
  | _ => false

/-- An event that only `saveData` produces. -/
def Event.isStore : Event → Bool
  | .mkdir _ => true
  | .writeJson _ _ => true
  | .writeCsv _ _ => true
  | .downloadImages _ _ => true
  | _ => false

/-- Number of page visits in a run. -/
def visits (run : List Event) : Nat := run.countP Event.isVisit

/-- Number of attempted navigations in a run. -/
def navigations (run : List Event) : Nat := run.countP Event.isNavigate

/-- The page batch of page `i`: what `scrapePageContent` returns there (empty
when it throws). -/
def batch (w : World) (i : Nat) : List (Option Product) :=
  match scrapePageContent w i with
  | .ok products => products
  | .error _ => []

/-- The batches of the `n` pages from page `i` on, concatenated in page
order. -/
def batchesFrom (w : World) (i : Nat) : Nat → List (Option Product)
  | 0 => []
  | n + 1 => batch w i ++ batchesFrom w (i + 1) n

/-! ## Example data -/

/-- A card with every node the extractor looks for. -/
def exampleCard : Card :=
  { img := some (some "https://cdn.example/1.jpg")
    title := some " Laptop "
    price := ["1200 ", "DA"]
    infos := ["8GB", "SSD"]
    others := ["Neuf", "2 h"] }

/-- A listing item with its card. -/
def exampleItem : Item := { id := some "a1", card := some exampleCard }

/-- A listing item without the card sub-element. -/
def cardlessItem : Item := { id := some "a2", card := none }

/-- A listing item whose card has no image node. -/
def imagelessItem : Item :=
  { id := some "a3"
    card := some { img := none, title := some "Laptop", price := [], infos := [], others := [] } }

/-- A listing item whose card has an image and a title and nothing else. -/
def bareItem : Item :=
  { id := some "a4"
    card := some
      { img := some (some "https://cdn.example/4.jpg"), title := some "Laptop", price := []
        infos := [], others := [] } }

/-- The product extracted from `exampleItem`. -/
def exampleProduct : Product :=
  { id := some "a1"
    img := some "https://cdn.example/1.jpg"
    title := "Laptop"
    price := { value := "1200", unit := "DA" }
    infos := ["8GB", "SSD"]
    state := "Neuf"
    timeAgo := "2 h" }

/-- A page of height 250 that shows `items`; the next-page control is there
when `nextControl` says so. -/
def exampleView (items : List Item) (nextControl : Bool) : PageView :=
  { url := "https://www.ouedkniss.com/informatique-ordinateur-portable/1"
    containerAppears := true
    heights := fun _ => 250
    networkIdle := true
    items := items
    nextControl := nextControl
    nextClick := true
    containerReappears := true }

/-- A world in which everything succeeds, except that the next-page control
is missing when `nextControl` is false; the pagination element is present with
the given `length` attribute and every page shows `items`. -/
def exampleWorld (length : Option String) (items : List Item) (nextControl : Bool) : World :=
  { gotoOk := true
    paginationAppears := true
    pagination := some { length := length }
    view := fun _ => exampleView items nextControl
    scrollBudget := 300
    mkdirOk := true
    jsonWriteOk := true
    csvWriteOk := true
    download := fun _ => .ok () }

/-- The elements of a list of strings written one after the other with `sep`
between two neighbours: what "joined with `sep`" says, stated without
`Array.prototype.join`. -/
def joinedWith (sep : String) : List String → String
  | [] => ""
  | [a] => a
  | a :: b :: rest => a ++ sep ++ joinedWith sep (b :: rest)

/-! ## Properties -/

theorem scrollLoop_iff (h : Nat → Nat) :
    ∀ (fuel k₀ k : Nat),
      scrollLoop h fuel k₀ (distance * k₀) = some k ↔
        (k₀ < k ∧ k ≤ k₀ + fuel ∧ h k ≤ 100 * k ∧ ∀ j, k₀ < j → j < k → 100 * j < h j) := by
  intro fuel
  induction fuel with
  | zero =>
    intro k₀ k
    simp only [scrollLoop]
    constructor
    · intro hk; cases hk
    · rintro ⟨h1, h2, -, -⟩; omega
  | succ fuel ih =>
    intro k₀ k
    have hstep : distance * k₀ + distance = distance * (k₀ + 1) := by ring
    simp only [scrollLoop, hstep]
    by_cases hstop : h (k₀ + 1) ≤ distance * (k₀ + 1)
    · rw [if_pos (by exact hstop)]
      have hstop2 : h (k₀ + 1) ≤ 100 * (k₀ + 1) := hstop
      constructor
      · intro hk
        have hk2 : k₀ + 1 = k := by simpa using hk
        subst hk2
        refine ⟨by omega, by omega, hstop2, ?_⟩
        intro j hj1 hj2; omega
      · rintro ⟨h1, h2, h3, h4⟩
        by_cases hk : k = k₀ + 1
        · rw [hk]
        · have := h4 (k₀ + 1) (by omega) (by omega)
          omega
    · rw [if_neg (by exact hstop)]
      have hstop2 : ¬ h (k₀ + 1) ≤ 100 * (k₀ + 1) := hstop
      rw [ih (k₀ + 1) k]
      constructor
      · rintro ⟨h1, h2, h3, h4⟩
        refine ⟨by omega, by omega, h3, ?_⟩
        intro j hj1 hj2
        by_cases hj : j = k₀ + 1
        · subst hj; omega
        · exact h4 j (by omega) hj2
      · rintro ⟨h1, h2, h3, h4⟩
        have hne : k ≠ k₀ + 1 := by
          intro hk; subst hk; exact hstop2 h3
        refine ⟨by omega, by omega, h3, ?_⟩
        intro j hj1 hj2
        exact h4 j (by omega) hj2

/-- C9: over the heights `h 1, h 2, ...` measured at successive ticks, the scroll
loop stops at tick `k` exactly when `k` is the first tick with `100 * k >= h k`
(and the ticks allowed reach `k`); and when every measured height is at most
`H`, it stops after at most `max 1 (ceil (H / 100))` ticks, the ceiling being
`(H + 99) / 100` on natural numbers. -/
theorem C9_scroll_loop_stops_at_first_reached_height (h : Nat → Nat) :
    (∀ fuel k : Nat, scrollSteps h fuel = some k ↔
        (1 ≤ k ∧ k ≤ fuel ∧ h k ≤ 100 * k ∧ ∀ j, 1 ≤ j → j < k → 100 * j < h j)) ∧
    (∀ H : Nat, (∀ k, 1 ≤ k → h k ≤ H) →
        ∀ fuel, max 1 ((H + 99) / 100) ≤ fuel →
          ∃ k, scrollSteps h fuel = some k ∧ 1 ≤ k ∧ k ≤ max 1 ((H + 99) / 100)) := by
  have hiff : ∀ fuel k : Nat, scrollSteps h fuel = some k ↔
      (1 ≤ k ∧ k ≤ fuel ∧ h k ≤ 100 * k ∧ ∀ j, 1 ≤ j → j < k → 100 * j < h j) := by
    intro fuel k
    have := scrollLoop_iff h fuel 0 k
    simp only [Nat.mul_zero, Nat.zero_add] at this
    simpa [scrollSteps, Nat.lt_iff_add_one_le] using this
  refine ⟨hiff, ?_⟩
  intro H hH fuel hfuel
  have hex : ∃ k, 1 ≤ k ∧ h k ≤ 100 * k := by
    refine ⟨max 1 ((H + 99) / 100), le_max_left _ _, ?_⟩
    have h1 := hH (max 1 ((H + 99) / 100)) (le_max_left _ _)
    have h2 : (H + 99) / 100 ≤ max 1 ((H + 99) / 100) := le_max_right _ _
    omega
  classical
  refine ⟨Nat.find hex, ?_, (Nat.find_spec hex).1, ?_⟩
  · rw [hiff]
    have hmin : Nat.find hex ≤ max 1 ((H + 99) / 100) := by
      apply Nat.find_min'
      refine ⟨le_max_left _ _, ?_⟩
      have h1 := hH (max 1 ((H + 99) / 100)) (le_max_left _ _)
      have h2 : (H + 99) / 100 ≤ max 1 ((H + 99) / 100) := le_max_right _ _
      omega
    refine ⟨(Nat.find_spec hex).1, le_trans hmin hfuel, (Nat.find_spec hex).2, ?_⟩
    intro j hj1 hj2
    have := Nat.find_min hex hj2
    simp only [not_and, not_le] at this
    exact this hj1
  · apply Nat.find_min'
    refine ⟨le_max_left _ _, ?_⟩
    have h1 := hH (max 1 ((H + 99) / 100)) (le_max_left _ _)
    have h2 : (H + 99) / 100 ≤ max 1 ((H + 99) / 100) := le_max_right _ _
    omega

theorem natLe_mathMin_nat (i L T : Nat) :
    JSNum.natLe i (mathMin L (JSNum.fin (T : ℚ))) = decide (i ≤ min L T) := by
  simp only [mathMin, JSNum.natLe]
  by_cases h : (L : ℚ) ≤ (T : ℚ)
  · have h2 : L ≤ T := by exact_mod_cast h
    rw [if_pos h, min_eq_left h2]
    simp
  · have h2 : T ≤ L := by
      have := le_of_lt (not_le.mp h)
      exact_mod_cast this
    rw [if_neg h, min_eq_right h2]
    simp

theorem natLt_mathMin_nat (i L T : Nat) :
    JSNum.natLt i (mathMin L (JSNum.fin (T : ℚ))) = decide (i < min L T) := by
  simp only [mathMin, JSNum.natLt]
  by_cases h : (L : ℚ) ≤ (T : ℚ)
  · have h2 : L ≤ T := by exact_mod_cast h
    rw [if_pos h, min_eq_left h2]
    simp
  · have h2 : T ≤ L := by
      have := le_of_lt (not_le.mp h)
      exact_mod_cast this
    rw [if_neg h, min_eq_right h2]
    simp

theorem natLe_mathMin_bound {i a : Nat} {x : JSNum} (h : JSNum.natLe i (mathMin a x) = true) :
    i ≤ a := by
  cases x with
  | nan => simp [mathMin, JSNum.natLe] at h
  | negInf => simp [mathMin, JSNum.natLe] at h
  | posInf => simpa [mathMin, JSNum.natLe] using h
  | fin q =>
    simp only [mathMin, JSNum.natLe, decide_eq_true_eq] at h
    split at h
    · exact_mod_cast h
    · rename_i hq
      have hq2 : (i : ℚ) ≤ a := le_trans h (le_of_lt (not_le.mp hq))
      exact_mod_cast hq2

/-- The loop only calls `scrapePageContent` and `navigateToNextPage`. -/
theorem pageLoop_events (w : World) (L : Nat) (T : JSNum) :
    ∀ (k i : Nat) (acc : List (Option Product)), L + 1 - i ≤ k →
      ∀ e ∈ (pageLoop w L T i acc).1, e.isLoop = true := by
  intro k
  induction k with
  | zero =>
    intro i acc hk e he
    rw [pageLoop] at he
    split at he
    · rename_i h
      have := natLe_mathMin_bound h
      omega
    · simp at he
  | succ k ih =>
    intro i acc hk e he
    rw [pageLoop] at he
    split at he
    · rename_i h
      have hb := natLe_mathMin_bound h
      split at he
      · simp only [List.mem_singleton] at he
        subst he; rfl
      · rename_i cur hcur
        split at he
        · split at he
          · simp only [List.mem_cons, List.mem_singleton, List.not_mem_nil, or_false] at he
            rcases he with rfl | rfl <;> rfl
          · simp only [List.mem_cons] at he
            rcases he with rfl | rfl | he
            · rfl
            · rfl
            · exact ih (i + 1) _ (by omega) e he
        · simp only [List.mem_cons] at he
          rcases he with rfl | he
          · rfl
          · exact ih (i + 1) _ (by omega) e he
    · simp at he

/-- When the loop ends normally, the accumulated products are the initial ones
followed by the batches of the pages visited, in order, and each of those
visits succeeded. -/
theorem pageLoop_result (w : World) (L : Nat) (T : JSNum) :
    ∀ (k i : Nat) (acc ps : List (Option Product)) (tr : List Event), L + 1 - i ≤ k →
      pageLoop w L T i acc = (tr, .ok ps) →
        ps = acc ++ batchesFrom w i (visits tr) ∧
        ∀ d, d < visits tr → scrapePageContent w (i + d) = .ok (batch w (i + d)) := by
  intro k
  induction k with
  | zero =>
    intro i acc ps tr hk hrun
    rw [pageLoop] at hrun
    split at hrun
    · rename_i h
      have := natLe_mathMin_bound h
      omega
    · simp only [Prod.mk.injEq, Except.ok.injEq] at hrun
      obtain ⟨rfl, rfl⟩ := hrun
      simp [visits, batchesFrom]
  | succ k ih =>
    intro i acc ps tr hk hrun
    rw [pageLoop] at hrun
    split at hrun
    · rename_i h
      have hb := natLe_mathMin_bound h
      split at hrun
      · simp at hrun
      · rename_i cur hcur
        have hbatch : batch w i = cur := by simp [batch, hcur]
        split at hrun
        · split at hrun
          · simp at hrun
          · simp only [Prod.mk.injEq] at hrun
            obtain ⟨htr, hps⟩ := hrun
            obtain ⟨h1, h2⟩ := ih (i + 1) (acc ++ cur) ps _ (by omega) (Prod.ext rfl hps)
            subst htr
            have hv : visits (Event.scrapePageContent i :: Event.navigateToNextPage i ::
                (pageLoop w L T (i + 1) (acc ++ cur)).1) =
                visits (pageLoop w L T (i + 1) (acc ++ cur)).1 + 1 := by
              simp [visits, List.countP_cons, Event.isVisit]
            rw [hv]
            refine ⟨by simp [batchesFrom, hbatch, h1], ?_⟩
            intro d hd
            cases d with
            | zero => simpa [hbatch] using hcur
            | succ d =>
              have := h2 d (Nat.lt_of_succ_lt_succ hd)
              rw [show i + (d + 1) = i + 1 + d by omega]
              exact this
        · simp only [Prod.mk.injEq] at hrun
          obtain ⟨htr, hps⟩ := hrun
          obtain ⟨h1, h2⟩ := ih (i + 1) (acc ++ cur) ps _ (by omega) (Prod.ext rfl hps)
          subst htr
          have hv : visits (Event.scrapePageContent i ::
              (pageLoop w L T (i + 1) (acc ++ cur)).1) =
              visits (pageLoop w L T (i + 1) (acc ++ cur)).1 + 1 := by
            simp [visits, List.countP_cons, Event.isVisit]
          rw [hv]
          refine ⟨by simp [batchesFrom, hbatch, h1], ?_⟩
          intro d hd
          cases d with
          | zero => simpa [hbatch] using hcur
          | succ d =>
            have := h2 d (Nat.lt_of_succ_lt_succ hd)
            rw [show i + (d + 1) = i + 1 + d by omega]
            exact this
    · simp only [Prod.mk.injEq, Except.ok.injEq] at hrun
      obtain ⟨rfl, rfl⟩ := hrun
      simp [visits, batchesFrom]

/-- With a natural number of pages and no failing step, the loop from page `i`
visits every page up to `min L T` and navigates between them. -/
theorem pageLoop_nat (w : World) (L T : Nat) :
    ∀ (k i : Nat) (acc : List (Option Product)), i ≤ min L T + 1 → min L T + 1 - i ≤ k →
      (∀ j, i ≤ j → j ≤ min L T → ∃ b, scrapePageContent w j = .ok b) →
      (∀ j, i ≤ j → j < min L T → navigateToNextPage w j = .ok ()) →
      ∃ tr, pageLoop w L (JSNum.fin (T : ℚ)) i acc =
          (tr, .ok (acc ++ batchesFrom w i (min L T + 1 - i))) ∧
        visits tr = min L T + 1 - i ∧ navigations tr = min L T - i := by
  intro k
  induction k with
  | zero =>
    intro i acc hi hk _ _
    have hi2 : i = min L T + 1 := by omega
    rw [pageLoop]
    simp only [natLe_mathMin_nat, natLt_mathMin_nat, decide_eq_true_eq]
    rw [dif_neg (by omega)]
    refine ⟨[], ?_, ?_, ?_⟩
    · rw [show min L T + 1 - i = 0 by omega]; simp [batchesFrom]
    · simp [visits]; omega
    · simp [navigations]; omega
  | succ k ih =>
    intro i acc hi hk hs hn
    rw [pageLoop]
    simp only [natLe_mathMin_nat, natLt_mathMin_nat, decide_eq_true_eq]
    by_cases hle : i ≤ min L T
    · rw [dif_pos hle]
      obtain ⟨cur, hcur⟩ := hs i (le_refl _) hle
      have hbatch : batch w i = cur := by simp [batch, hcur]
      obtain ⟨tr, htr, hv, hnv⟩ := ih (i + 1) (acc ++ cur) (by omega) (by omega)
        (fun j hj1 hj2 => hs j (by omega) hj2) (fun j hj1 hj2 => hn j (by omega) hj2)
      have hb : acc ++ batchesFrom w i (min L T + 1 - i) =
          acc ++ cur ++ batchesFrom w (i + 1) (min L T + 1 - (i + 1)) := by
        rw [show min L T + 1 - i = (min L T + 1 - (i + 1)) + 1 by omega]
        simp [batchesFrom, hbatch]
      simp only [hcur]
      by_cases hlt : i < min L T
      · rw [if_pos hlt, hn i (le_refl _) hlt]
        refine ⟨Event.scrapePageContent i :: Event.navigateToNextPage i :: tr, ?_, ?_, ?_⟩
        · simp only [htr]; rw [hb]
        · simp only [visits, List.countP_cons, Event.isVisit] at hv ⊢
          simp only [Bool.false_eq_true, if_false, if_true] at hv ⊢
          omega
        · simp only [navigations, List.countP_cons, Event.isNavigate] at hnv ⊢
          simp only [Bool.false_eq_true, if_false, if_true] at hnv ⊢
          omega
      · rw [if_neg hlt]
        refine ⟨Event.scrapePageContent i :: tr, ?_, ?_, ?_⟩
        · simp only [htr]; rw [hb]
        · simp only [visits, List.countP_cons, Event.isVisit] at hv ⊢
          simp only [Bool.false_eq_true, if_false, if_true] at hv ⊢
          omega
        · simp only [navigations, List.countP_cons, Event.isNavigate] at hnv ⊢
          simp only [Bool.false_eq_true, if_false, if_true] at hnv ⊢
          omega
    · rw [dif_neg hle]
      refine ⟨[], ?_, ?_, ?_⟩
      · rw [show min L T + 1 - i = 0 by omega]; simp [batchesFrom]
      · simp [visits]; omega
      · simp [navigations]; omega

/-- Everything `saveData` does is a file-system or download event. -/
theorem saveData_events (cfg : Config) (w : World) (pt : String) (ps : List (Option Product)) :
    ∀ e ∈ (saveData cfg w pt ps).1, e.isStore = true := by
  intro e he
  unfold saveData saveToJsonFile saveToCsvFile at he
  cases h1 : w.mkdirOk <;> cases h2 : w.jsonWriteOk <;> cases h3 : w.csvWriteOk <;>
    cases h4 : cfg.withDownloadingImages <;> cases h5 : csvRecords ps <;>
    simp [h1, h2, h3, h4, h5] at he <;>
    rcases he with rfl | rfl | rfl | rfl | rfl <;> rfl

theorem batchesFrom_eq_flatMap (w : World) :
    ∀ (n i : Nat), batchesFrom w i n = (List.range n).flatMap (fun d => batch w (i + d)) := by
  intro n
  induction n with
  | zero => intro i; simp [batchesFrom]
  | succ n ih =>
    intro i
    rw [batchesFrom, ih (i + 1), List.range_succ_eq_map]
    simp only [List.flatMap_cons, Nat.add_zero, List.flatMap_map]
    congr 1
    apply congrArg
    funext d
    simp only [Function.comp, Nat.succ_eq_add_one]
    congr 1
    omega

theorem batchesFrom_length (w : World) :
    ∀ (n i : Nat), (batchesFrom w i n).length =
      ((List.range n).map (fun d => (batch w (i + d)).length)).sum := by
  intro n
  induction n with
  | zero => intro i; simp [batchesFrom]
  | succ n ih =>
    intro i
    rw [batchesFrom, List.length_append, ih (i + 1), List.range_succ_eq_map]
    simp only [List.map_cons, List.sum_cons, Nat.add_zero, List.map_map]
    congr 2
    apply List.map_congr_left
    intro d _
    simp only [Function.comp, Nat.succ_eq_add_one]
    rw [show i + 1 + d = i + (d + 1) by omega]

/-- The three ways the `try` block can go. -/
theorem mainTry_cases (cfg : Config) (w : World) :
    (∃ e, mainTry cfg w = ([.goto url], .error e)) ∨
    (∃ t e, pageLoop w cfg.numberOfPagesToScrape (totalPages w.pagination) 1 [] = (t, .error e) ∧
        mainTry cfg w = (.goto url :: t, .error e)) ∨
    (∃ t ps, pageLoop w cfg.numberOfPagesToScrape (totalPages w.pagination) 1 [] = (t, .ok ps) ∧
        mainTry cfg w =
          (.goto url :: (t ++ .saveData ps :: (saveData cfg w productType ps).1),
            (saveData cfg w productType ps).2)) := by
  unfold mainTry
  cases hg : w.gotoOk with
  | false => left; exact ⟨JSError.timeout url, by simp⟩
  | true =>
    cases hp : w.paginationAppears with
    | false => left; exact ⟨JSError.timeout paginationPath, by simp [waitForSelector]⟩
    | true =>
      right
      rcases hl : pageLoop w cfg.numberOfPagesToScrape (totalPages w.pagination) 1 [] with ⟨t, r⟩
      cases r with
      | error e => left; exact ⟨t, e, rfl, by simp [waitForSelector]⟩
      | ok ps => right; exact ⟨t, ps, rfl, by simp [waitForSelector]⟩

/-- The run when the number of pages is a natural number and no step of the
loop fails. -/
theorem main_of_nat (cfg : Config) (w : World) (T : Nat)
    (hT : totalPages w.pagination = JSNum.fin (T : ℚ))
    (hgoto : w.gotoOk = true) (hpag : w.paginationAppears = true)
    (hs : ∀ i, 1 ≤ i → i ≤ min cfg.numberOfPagesToScrape T → ∃ b, scrapePageContent w i = .ok b)
    (hn : ∀ i, 1 ≤ i → i < min cfg.numberOfPagesToScrape T → navigateToNextPage w i = .ok ()) :
    ∃ tr rest, main cfg w =
        .goto url :: (tr ++ .saveData (batchesFrom w 1 (min cfg.numberOfPagesToScrape T)) :: rest) ∧
      visits tr = min cfg.numberOfPagesToScrape T ∧
      navigations tr = min cfg.numberOfPagesToScrape T - 1 ∧
      (∀ e ∈ rest, e.isVisit = false ∧ e.isNavigate = false) := by
  obtain ⟨tr, htr, hv, hnv⟩ := pageLoop_nat w cfg.numberOfPagesToScrape T
    (min cfg.numberOfPagesToScrape T + 1) 1 [] (by omega) (by omega) hs hn
  simp only [Nat.add_sub_cancel, List.nil_append] at htr hv
  refine ⟨tr, (saveData cfg w productType (batchesFrom w 1 (min cfg.numberOfPagesToScrape T))).1 ++
    (match (saveData cfg w productType (batchesFrom w 1 (min cfg.numberOfPagesToScrape T))).2 with
      | .error e => [Event.consoleError e]
      | .ok _ => []) ++ [.browserClose, .processExit 1], ?_, hv, hnv, ?_⟩
  · simp [main, mainTry, hgoto, hpag, waitForSelector, hT, htr]
  · intro e he
    simp only [List.mem_append, List.mem_cons, List.mem_singleton, List.not_mem_nil, or_false] at he
    rcases he with (he | he) | he
    · have := saveData_events cfg w productType _ e he
      cases e <;> simp_all [Event.isStore, Event.isVisit, Event.isNavigate]
    · split at he
      · simp only [List.mem_singleton] at he
        subst he; exact ⟨rfl, rfl⟩
      · simp at he
    · rcases he with rfl | rfl <;> exact ⟨rfl, rfl⟩

theorem pageLoop_done (w : World) (L : Nat) (T : JSNum) (i : Nat) (acc : List (Option Product))
    (h : JSNum.natLe i (mathMin L T) = false) : pageLoop w L T i acc = ([], .ok acc) := by
  rw [pageLoop, dif_neg (by simp [h])]

theorem pageLoop_nav_error (w : World) (L : Nat) (T : JSNum) (i : Nat)
    (acc cur : List (Option Product)) (e : JSError)
    (h : JSNum.natLe i (mathMin L T) = true) (hs : scrapePageContent w i = .ok cur)
    (hlt : JSNum.natLt i (mathMin L T) = true) (hn : navigateToNextPage w i = .error e) :
    pageLoop w L T i acc = ([.scrapePageContent i, .navigateToNextPage i], .error e) := by
  rw [pageLoop, dif_pos h]
  simp only [hs, hlt, if_true, hn]

/-- The forms a run can take: the `try` block fails before the loop, in the
loop, or reaches `saveData`. -/
theorem main_cases (cfg : Config) (w : World) :
    (∃ e, main cfg w = [.goto url, .consoleError e, .browserClose, .processExit 1]) ∨
    (∃ t e, pageLoop w cfg.numberOfPagesToScrape (totalPages w.pagination) 1 [] = (t, .error e) ∧
        main cfg w = .goto url :: (t ++ [.consoleError e, .browserClose, .processExit 1])) ∨
    (∃ t ps tail, pageLoop w cfg.numberOfPagesToScrape (totalPages w.pagination) 1 [] = (t, .ok ps) ∧
        main cfg w = .goto url :: (t ++ .saveData ps :: ((saveData cfg w productType ps).1 ++
          tail ++ [.browserClose, .processExit 1])) ∧
        (tail = [] ∨ ∃ e, tail = [.consoleError e])) := by
  rcases mainTry_cases cfg w with ⟨e, h⟩ | ⟨t, e, hl, h⟩ | ⟨t, ps, hl, h⟩
  · left; exact ⟨e, by simp [main, h]⟩
  · right; left; exact ⟨t, e, hl, by simp [main, h]⟩
  · right; right
    cases hr : (saveData cfg w productType ps).2 with
    | error e =>
      exact ⟨t, ps, [.consoleError e], hl, by simp [main, h, hr], Or.inr ⟨e, rfl⟩⟩
    | ok u =>
      exact ⟨t, ps, [], hl, by simp [main, h, hr], Or.inl rfl⟩

theorem visits_of_loop_free (l : List Event) (h : ∀ e ∈ l, e.isLoop = false) :
    visits l = 0 ∧ navigations l = 0 := by
  constructor
  · simp only [visits, List.countP_eq_zero]
    intro e he
    have := h e he
    cases e <;> simp_all [Event.isLoop, Event.isVisit]
  · simp only [navigations, List.countP_eq_zero]
    intro e he
    have := h e he
    cases e <;> simp_all [Event.isLoop, Event.isNavigate]

theorem store_events_loop_free (cfg : Config) (w : World) (ps : List (Option Product))
    (tail : List Event) (ht : tail = [] ∨ ∃ e, tail = [.consoleError e]) :
    ∀ e ∈ .saveData ps :: ((saveData cfg w productType ps).1 ++ tail ++
      [.browserClose, .processExit 1]), e.isLoop = false ∧ (e.isSaveData = true → e = .saveData ps) := by
  intro e he
  simp only [List.mem_cons, List.mem_append, List.mem_singleton, List.not_mem_nil, or_false] at he
  rcases he with rfl | (he | he) | he
  · exact ⟨rfl, fun _ => rfl⟩
  · have := saveData_events cfg w productType ps e he
    cases e <;> simp_all [Event.isStore, Event.isLoop, Event.isSaveData]
  · rcases ht with rfl | ⟨e', rfl⟩
    · simp at he
    · simp only [List.mem_singleton] at he
      subst he
      simp [Event.isLoop, Event.isSaveData]
  · rcases he with rfl | rfl <;> simp [Event.isLoop, Event.isSaveData]

/-- C1 (amended): for a page limit `L` and a total page count that is a natural
number `T`, a run in which `goto` and the pagination wait resolve and no call
of `scrapePageContent` or `navigateToNextPage` fails makes exactly `min L T`
page visits; it attempts navigation exactly `min L T - 1` times when `min L T`
is at least 1, and not at all when `min L T` is 0. -/
theorem C1_visits_and_navigations_for_natural_page_count (cfg : Config) (w : World) (T : Nat)
    (hT : totalPages w.pagination = JSNum.fin (T : ℚ))
    (hgoto : w.gotoOk = true) (hpag : w.paginationAppears = true)
    (hs : ∀ i, 1 ≤ i → i ≤ min cfg.numberOfPagesToScrape T → ∃ b, scrapePageContent w i = .ok b)
    (hn : ∀ i, 1 ≤ i → i < min cfg.numberOfPagesToScrape T → navigateToNextPage w i = .ok ()) :
    visits (main cfg w) = min cfg.numberOfPagesToScrape T ∧
    (1 ≤ min cfg.numberOfPagesToScrape T →
      navigations (main cfg w) + 1 = min cfg.numberOfPagesToScrape T) ∧
    (min cfg.numberOfPagesToScrape T = 0 → navigations (main cfg w) = 0) := by
  obtain ⟨tr, rest, hmain, hv, hnv, hrest⟩ := main_of_nat cfg w T hT hgoto hpag hs hn
  have hfree := visits_of_loop_free (Event.saveData (batchesFrom w 1 (min cfg.numberOfPagesToScrape T)) :: rest)
    (by
      intro e he
      simp only [List.mem_cons] at he
      rcases he with rfl | he
      · rfl
      · have := hrest e he
        cases e <;> simp_all [Event.isLoop, Event.isVisit, Event.isNavigate])
  have hv2 : visits (main cfg w) = visits tr := by
    rw [hmain]
    have := hfree.1
    simp only [visits, List.countP_cons, List.countP_append, Event.isVisit] at this ⊢
    simp only [Bool.false_eq_true, if_false] at this ⊢
    omega
  have hn2 : navigations (main cfg w) = navigations tr := by
    rw [hmain]
    have := hfree.2
    simp only [navigations, List.countP_cons, List.countP_append, Event.isNavigate] at this ⊢
    simp only [Bool.false_eq_true, if_false] at this ⊢
    omega
  rw [hv2, hn2, hv, hnv]
  refine ⟨rfl, ?_, ?_⟩ <;> intro h <;> omega

theorem main_missing_length :
    main sourceConfig (exampleWorld none [exampleItem] true) =
      [.goto url, .saveData [], .mkdir resultsDir, .mkdir (resultsDir ++ "/images"),
        .writeJson (resultsDir ++ "/" ++ productType ++ ".json") [],
        .writeCsv (resultsDir ++ "/" ++ productType ++ ".csv") [],
        .downloadImages (resultsDir ++ "/images") [], .browserClose, .processExit 1] := by
  have hl : pageLoop (exampleWorld none [exampleItem] true) 1 (JSNum.fin 0) 1 [] = ([], .ok []) :=
    pageLoop_done _ _ _ _ _ (by decide)
  have hT : totalPages (exampleWorld none [exampleItem] true).pagination = JSNum.fin 0 := by decide
  simp only [main, mainTry, sourceConfig, hT, hl]
  rfl

/-- C1 counterexample: with the settings of the source (page limit 1) and a
pagination element that has no `length` attribute, the total page count is
`Number(null) = 0`, no step fails, no page is visited and navigation is
attempted 0 times, which is not `min 1 0 - 1 = -1`. -/
theorem C1_counterexample_missing_length_attribute :
    totalPages (exampleWorld none [exampleItem] true).pagination = JSNum.fin ((0 : ℕ) : ℚ) ∧
    (mainTry sourceConfig (exampleWorld none [exampleItem] true)).2 = .ok () ∧
    visits (main sourceConfig (exampleWorld none [exampleItem] true)) = 0 ∧
    navigations (main sourceConfig (exampleWorld none [exampleItem] true)) = 0 ∧
    ¬ ((navigations (main sourceConfig (exampleWorld none [exampleItem] true)) : ℤ) =
        min (sourceConfig.numberOfPagesToScrape : ℤ) 0 - 1) := by
  have hl : pageLoop (exampleWorld none [exampleItem] true) 1 (JSNum.fin 0) 1 [] = ([], .ok []) :=
    pageLoop_done _ _ _ _ _ (by decide)
  have hT : totalPages (exampleWorld none [exampleItem] true).pagination = JSNum.fin 0 := by decide
  refine ⟨by decide, ?_, ?_, ?_, ?_⟩
  · simp only [mainTry, sourceConfig, hT, hl]
    rfl
  · rw [main_missing_length]; decide
  · rw [main_missing_length]; decide
  · rw [main_missing_length]; decide

/-- C1 witness: page limit 2 with 3 pages available, every step succeeding. -/
theorem C1_witness_limit_two_of_three_pages :
    visits (main { numberOfPagesToScrape := 2, withDownloadingImages := true }
        (exampleWorld (some "3") [exampleItem] true)) = min 2 3 ∧
    (1 ≤ min 2 3 → navigations (main { numberOfPagesToScrape := 2, withDownloadingImages := true }
        (exampleWorld (some "3") [exampleItem] true)) + 1 = min 2 3) ∧
    (min 2 3 = 0 → navigations (main { numberOfPagesToScrape := 2, withDownloadingImages := true }
        (exampleWorld (some "3") [exampleItem] true)) = 0) :=
  C1_visits_and_navigations_for_natural_page_count
    { numberOfPagesToScrape := 2, withDownloadingImages := true }
    (exampleWorld (some "3") [exampleItem] true) 3 (by decide) rfl rfl
    (fun _ _ _ => ⟨_, rfl⟩) (fun _ _ _ => rfl)

/-- C5: when a run calls `saveData`, the products handed over are the batches of
the pages visited, pages 1 to `n` in page order and each batch in its own
order, nothing removed; the length is the sum of the batch lengths, and each
of those visits succeeded.  And when the total page count is a natural number
and no step fails, `saveData` is called with the batches of pages 1 to
`min L T`. -/
theorem C5_saved_products_are_page_batches_in_order (cfg : Config) (w : World) :
    (∀ ps, Event.saveData ps ∈ main cfg w →
      ps = (List.range (visits (main cfg w))).flatMap (fun d => batch w (1 + d)) ∧
      ps.length = ((List.range (visits (main cfg w))).map (fun d => (batch w (1 + d)).length)).sum ∧
      ∀ d, d < visits (main cfg w) → scrapePageContent w (1 + d) = .ok (batch w (1 + d))) ∧
    (∀ T : Nat, totalPages w.pagination = JSNum.fin (T : ℚ) →
      w.gotoOk = true → w.paginationAppears = true →
      (∀ i, 1 ≤ i → i ≤ min cfg.numberOfPagesToScrape T → ∃ b, scrapePageContent w i = .ok b) →
      (∀ i, 1 ≤ i → i < min cfg.numberOfPagesToScrape T → navigateToNextPage w i = .ok ()) →
      Event.saveData ((List.range (min cfg.numberOfPagesToScrape T)).flatMap
        (fun d => batch w (1 + d))) ∈ main cfg w) := by
  constructor
  · intro ps hps
    have hloopev : ∀ (t : List Event) r,
        pageLoop w cfg.numberOfPagesToScrape (totalPages w.pagination) 1 [] = (t, r) →
        ∀ e ∈ t, e.isLoop = true := by
      intro t r hl e he
      exact pageLoop_events w cfg.numberOfPagesToScrape (totalPages w.pagination)
        (cfg.numberOfPagesToScrape + 1) 1 [] (by omega) e (by rw [hl]; exact he)
    rcases main_cases cfg w with ⟨e, h⟩ | ⟨t, e, hl, h⟩ | ⟨t, ps', tail, hl, h, ht⟩
    · rw [h] at hps
      simp at hps
    · rw [h] at hps
      simp only [List.mem_cons, List.mem_append, List.mem_singleton, List.not_mem_nil,
        or_false] at hps
      rcases hps with hps | hps | hps | hps | hps
      · cases hps
      · have := hloopev t _ hl _ hps
        simp [Event.isLoop] at this
      · cases hps
      · cases hps
      · cases hps
    · have hstore := store_events_loop_free cfg w ps' tail ht
      have hmem : Event.saveData ps ∈ t ∨ Event.saveData ps ∈ Event.saveData ps' ::
          ((saveData cfg w productType ps').1 ++ tail ++ [.browserClose, .processExit 1]) := by
        rw [h] at hps
        simp only [List.mem_cons, List.mem_append] at hps ⊢
        rcases hps with hps | hps | hps
        · cases hps
        · exact Or.inl hps
        · exact Or.inr hps
      have hps' : ps = ps' := by
        rcases hmem with hm | hm
        · have := hloopev t _ hl _ hm
          simp [Event.isLoop] at this
        · have := (hstore _ hm).2 rfl
          exact Event.saveData.inj this
      subst hps'
      have hfree := visits_of_loop_free _ (fun e he => (hstore e he).1)
      have hv : visits (main cfg w) = visits t := by
        rw [h]
        have := hfree.1
        simp only [visits, List.countP_cons, List.countP_append, Event.isVisit] at this ⊢
        simp only [Bool.false_eq_true, if_false] at this ⊢
        omega
      obtain ⟨h1, h2⟩ := pageLoop_result w cfg.numberOfPagesToScrape (totalPages w.pagination)
        (cfg.numberOfPagesToScrape + 1) 1 [] ps t (by omega) hl
      rw [hv]
      refine ⟨?_, ?_, h2⟩
      · rw [← batchesFrom_eq_flatMap]; simpa using h1
      · rw [← batchesFrom_length]; rw [h1]; simp
  · intro T hT hgoto hpag hs hn
    obtain ⟨tr, rest, hmain, -, -, -⟩ := main_of_nat cfg w T hT hgoto hpag hs hn
    rw [hmain, ← batchesFrom_eq_flatMap]
    simp

theorem navigateToNextPage_never_cantNavigate (w : World) (i n : Nat) (u : String) :
    navigateToNextPage w i ≠ .error (.cantNavigate n u) := by
  unfold navigateToNextPage waitForSelector
  cases (w.view i).nextControl <;> cases (w.view i).nextClick <;>
    cases (w.view i).containerReappears <;> simp [Locator.truthy, locator]

/-- C6 (the code at the failing input): with page limit 2, 2 pages available
and no next-page control on page 1, the run visits page 1, attempts the
navigation, logs the timeout of the wait on the selector of the control, closes
the browser and exits, without calling `saveData`; the logged error carries
neither the page number nor the URL.  In no world does `navigateToNextPage`
end with the error that carries them. -/
theorem C6_missing_next_control_gives_selector_timeout :
    main { numberOfPagesToScrape := 2, withDownloadingImages := true }
        (exampleWorld (some "2") [exampleItem] false) =
      [.goto url, .scrapePageContent 1, .navigateToNextPage 1,
        .consoleError (.timeout nextPageLinkPath), .browserClose, .processExit 1] ∧
    (∀ (w : World) (i n : Nat) (u : String),
      navigateToNextPage w i ≠ .error (.cantNavigate n u)) := by
  refine ⟨?_, navigateToNextPage_never_cantNavigate⟩
  have hT : totalPages (exampleWorld (some "2") [exampleItem] false).pagination = JSNum.fin 2 := by
    decide
  have hl : pageLoop (exampleWorld (some "2") [exampleItem] false) 2 (JSNum.fin 2) 1 [] =
      ([.scrapePageContent 1, .navigateToNextPage 1], .error (.timeout nextPageLinkPath)) :=
    pageLoop_nav_error _ _ _ _ _ _ _ (by decide) rfl (by decide) rfl
  simp only [main, mainTry, hT, hl]
  rfl

theorem extractProducts_length :
    ∀ (items : List Item) (ps : List (Option Product)), extractProducts items = .ok ps →
      ps.length = items.length ∧
      (ps.filter Option.isNone).length = (items.filter (fun it => it.card.isNone)).length := by
  intro items
  induction items with
  | nil =>
    intro ps h
    simp only [extractProducts, Except.ok.injEq] at h
    subst h; simp
  | cons item items ih =>
    intro ps h
    simp only [extractProducts] at h
    cases hi : extractItem item with
    | error e => simp [hi] at h
    | ok p =>
      cases hr : extractProducts items with
      | error e => simp [hi, hr] at h
      | ok rest =>
        simp only [hi, hr, Except.ok.injEq] at h
        subst h
        obtain ⟨h1, h2⟩ := ih rest hr
        have hp : p.isNone = item.card.isNone := by
          unfold extractItem at hi
          cases hc : item.card with
          | none => simp [hc] at hi; subst hi; rfl
          | some c =>
            simp only [hc] at hi
            cases hi1 : c.img with
            | none => simp [hi1] at hi
            | some src =>
              cases hi2 : c.title with
              | none => simp [hi1, hi2] at hi
              | some t => simp [hi1, hi2] at hi; subst hi; rfl
        refine ⟨by simp [h1], ?_⟩
        simp only [List.filter_cons, hp]
        cases item.card.isNone <;> simp [h2]

/-- C2 (what the code does): when the extraction returns, the sequence has one
entry per listing item, and as many `undefined` entries as there are items
without the card sub-element: `N + M` entries for `N` items with a card and `M`
without, not `N`. -/
theorem C2_extraction_keeps_one_entry_per_item (items : List Item) (ps : List (Option Product))
    (h : extractProducts items = .ok ps) :
    ps.length = items.length ∧
    (ps.filter Option.isNone).length = (items.filter (fun it => it.card.isNone)).length :=
  extractProducts_length items ps h

/-- C2 witness: one item with its card and one without give two entries, the
second one `undefined`. -/
theorem C2_witness_one_record_one_hole :
    extractProducts [exampleItem, cardlessItem] = .ok [some exampleProduct, none] ∧
    [some exampleProduct, none].length = [exampleItem, cardlessItem].length ∧
    ([some exampleProduct, none].filter Option.isNone).length =
      ([exampleItem, cardlessItem].filter (fun it => it.card.isNone)).length :=
  ⟨rfl, C2_extraction_keeps_one_entry_per_item [exampleItem, cardlessItem]
    [some exampleProduct, none] rfl⟩

/-- C4 counterexample: an item that has the card sub-element but no image node
makes the extraction of that item, and of the page, throw a `TypeError`. -/
theorem C4_counterexample_missing_image_node_throws :
    imagelessItem.card.isSome = true ∧ extractItem imagelessItem = .error .typeError ∧
    extractProducts [exampleItem, imagelessItem] = .error .typeError :=
  ⟨rfl, rfl, rfl⟩

/-- C4 (amended): for every listing item that has the card sub-element, an
image node and a title node, whichever of the price nodes, tag chips and
status and time nodes are missing, the extraction of the item does not throw,
and the price value, price unit, state and time label are the empty string
when their node is missing; the tags are the trimmed texts of the chips that
are there. -/
theorem C4_missing_price_and_status_nodes_give_empty_strings (item : Item) (card : Card)
    (src : Option String) (text : String)
    (hc : item.card = some card) (hi : card.img = some src) (ht : card.title = some text) :
    ∃ p, extractItem item = .ok (some p) ∧ p.id = item.id ∧ p.img = src ∧ p.title = jsTrim text ∧
      (card.price.get? 0 = none → p.price.value = "") ∧
      (card.price.get? 1 = none → p.price.unit = "") ∧
      (card.others.get? 0 = none → p.state = "") ∧
      (card.others.get? 1 = none → p.timeAgo = "") ∧
      p.infos = card.infos.map jsTrim := by
  refine ⟨Product.mk item.id src (jsTrim text)
      (Price.mk (textAt card.price 0) (textAt card.price 1)) (card.infos.map jsTrim)
      (textAt card.others 0) (textAt card.others 1),
    by simp only [extractItem, hc, hi, ht], rfl, rfl, rfl, ?_, ?_, ?_, ?_, rfl⟩ <;>
    intro h <;> simp only [textAt, h]

/-- C4 witness: a card with an image and a title and no other node. -/
theorem C4_witness_bare_item :
    ∃ p, extractItem bareItem = .ok (some p) ∧ p.id = bareItem.id ∧
      p.img = some "https://cdn.example/4.jpg" ∧ p.title = jsTrim "Laptop" ∧
      (([] : List String).get? 0 = none → p.price.value = "") ∧
      (([] : List String).get? 1 = none → p.price.unit = "") ∧
      (([] : List String).get? 0 = none → p.state = "") ∧
      (([] : List String).get? 1 = none → p.timeAgo = "") ∧
      p.infos = ([] : List String).map jsTrim :=
  C4_missing_price_and_status_nodes_give_empty_strings bareItem
    { img := some (some "https://cdn.example/4.jpg"), title := some "Laptop", price := []
      infos := [], others := [] }
    (some "https://cdn.example/4.jpg") "Laptop" rfl rfl rfl

theorem intercalate_go_eq (sep : String) :
    ∀ (l : List String) (acc : String),
      String.intercalate.go acc sep l = acc ++ (l.map (fun a => sep ++ a)).foldr (· ++ ·) "" := by
  intro l
  induction l with
  | nil => intro acc; simp [String.intercalate.go]
  | cons a as ih =>
    intro acc
    simp only [String.intercalate.go, ih, List.map_cons, List.foldr_cons, String.append_assoc]

theorem joinedWith_cons (sep : String) :
    ∀ (l : List String) (a : String),
      joinedWith sep (a :: l) = a ++ (l.map (fun b => sep ++ b)).foldr (· ++ ·) "" := by
  intro l
  induction l with
  | nil => intro a; simp [joinedWith]
  | cons b bs ih =>
    intro a
    simp only [joinedWith, ih, List.map_cons, List.foldr_cons, String.append_assoc]

theorem intercalate_eq_joinedWith (sep : String) (l : List String) :
    sep.intercalate l = joinedWith sep l := by
  cases l with
  | nil => rfl
  | cons a as => rw [String.intercalate, intercalate_go_eq, joinedWith_cons]

theorem csvRecords_of_records :
    ∀ products : List Product, csvRecords (products.map some) = .ok (products.map toCsvRecord) := by
  intro products
  induction products with
  | nil => rfl
  | cons p ps ih => simp only [List.map_cons, csvRecords, ih]

theorem csvRecords_of_hole :
    ∀ products : List (Option Product), none ∈ products → csvRecords products = .error .typeError := by
  intro products
  induction products with
  | nil => intro h; simp at h
  | cons p ps ih =>
    intro h
    cases p with
    | none => rfl
    | some p =>
      have : none ∈ ps := by simpa using h
      simp only [csvRecords, ih this]

/-- C8 counterexample: the tags `8GB` and `SSD` are written as `8GB, SSD`, with a
space after the comma, which is not the tags joined with commas. -/
theorem C8_counterexample_separator_has_a_space :
    (toCsvRecord exampleProduct).infos = "8GB, SSD" ∧
    (toCsvRecord exampleProduct).infos ≠ joinedWith "," exampleProduct.infos := by
  decide

/-- C8 (amended): for every sequence of records, `saveToCsvFile` builds, and
writes when the writer succeeds, one row per record in the same order, with
`id`, `img` and `title` unchanged, `price` the value, one space and the unit,
`infos` the tags in their order joined with a comma followed by one space, and
`others` the state, one space and the time label. -/
theorem C8_csv_rows_follow_records (products : List Product) :
    csvRecords (products.map some) = .ok (products.map toCsvRecord) ∧
    (∀ (w : World) (filename : String), w.csvWriteOk = true →
      saveToCsvFile w filename (products.map some) =
        ([.writeCsv filename (products.map toCsvRecord)], .ok ())) ∧
    (products.map toCsvRecord).length = products.length ∧
    ∀ (k : Nat) (p : Product), products.get? k = some p →
      ∃ row, (products.map toCsvRecord).get? k = some row ∧
        row.id = p.id ∧ row.img = p.img ∧ row.title = p.title ∧
        row.price = p.price.value ++ " " ++ p.price.unit ∧
        row.infos = joinedWith ", " p.infos ∧
        row.others = p.state ++ " " ++ p.timeAgo := by
  refine ⟨csvRecords_of_records products, ?_, by simp, ?_⟩
  · intro w filename hw
    simp only [saveToCsvFile, csvRecords_of_records, hw, if_true]
  · intro k p hk
    refine ⟨toCsvRecord p, by simp only [List.get?_eq_getElem?, List.getElem?_map] at hk ⊢; rw [hk]; rfl, rfl, rfl, rfl, rfl, ?_, rfl⟩
    simp only [toCsvRecord, intercalate_eq_joinedWith]

/-- C8 witness: the row of the example product. -/
theorem C8_witness_example_product :
    ∃ row, ([exampleProduct].map toCsvRecord).get? 0 = some row ∧
      row.id = exampleProduct.id ∧ row.img = exampleProduct.img ∧
      row.title = exampleProduct.title ∧
      row.price = exampleProduct.price.value ++ " " ++ exampleProduct.price.unit ∧
      row.infos = joinedWith ", " exampleProduct.infos ∧
      row.others = exampleProduct.state ++ " " ++ exampleProduct.timeAgo :=
  (C8_csv_rows_follow_records [exampleProduct]).2.2.2 0 exampleProduct rfl

/-- C10: for every product sequence with at least one `undefined` entry,
`saveToCsvFile` throws a `TypeError` and writes no row; hence `saveData`, once
the directories exist and the JSON file is written, stops at the CSV file with
that error, and in no case writes a CSV row or calls `downloadImages`. -/
theorem C10_hole_stops_csv_before_any_row (cfg : Config) (w : World) (filename : String)
    (products : List (Option Product)) (h : none ∈ products) :
    saveToCsvFile w filename products = ([], .error .typeError) ∧
    (w.mkdirOk = true → w.jsonWriteOk = true →
      saveData cfg w productType products =
        ([.mkdir resultsDir, .mkdir (resultsDir ++ "/images"),
          .writeJson (resultsDir ++ "/" ++ productType ++ ".json") products],
          .error .typeError)) ∧
    (∀ e ∈ (saveData cfg w productType products).1,
      (∀ f r, e ≠ .writeCsv f r) ∧ ∀ d ps, e ≠ .downloadImages d ps) := by
  have hcsv : ∀ f, saveToCsvFile w f products = ([], .error .typeError) := by
    intro f
    simp only [saveToCsvFile, csvRecords_of_hole products h]
  refine ⟨hcsv filename, ?_, ?_⟩
  · intro h1 h2
    simp only [saveData, h1, h2, saveToJsonFile, hcsv, if_true]
    rfl
  · intro e he
    unfold saveData saveToJsonFile at he
    simp only [hcsv] at he
    cases h1 : w.mkdirOk <;> cases h2 : w.jsonWriteOk <;>
      simp [h1, h2] at he <;>
      rcases he with rfl | rfl | rfl <;> simp

/-- C10 witness: the sequence the extractor returns for one item with its card
and one without. -/
theorem C10_witness_cardless_item :
    extractProducts [exampleItem, cardlessItem] = .ok [some exampleProduct, none] ∧
    none ∈ [some exampleProduct, none] ∧
    saveToCsvFile (exampleWorld (some "1") [exampleItem, cardlessItem] true) "out.csv"
      [some exampleProduct, none] = ([], .error .typeError) :=
  ⟨rfl, by simp, (C10_hole_stops_csv_before_any_row sourceConfig
    (exampleWorld (some "1") [exampleItem, cardlessItem] true) "out.csv"
    [some exampleProduct, none] (by simp)).1⟩

/-- C9 witness: a page whose height stays at 250 stops the loop within 3 ticks. -/
theorem C9_witness_height_250 :
    (∀ k, 1 ≤ k → (fun _ : Nat => 250) k ≤ 250) ∧
    ∃ k, scrollSteps (fun _ => 250) 3 = some k ∧ 1 ≤ k ∧ k ≤ max 1 ((250 + 99) / 100) :=
  ⟨fun _ _ => le_refl _,
    (C9_scroll_loop_stops_at_first_reached_height (fun _ => 250)).2 250
      (fun _ _ => le_refl _) 3 (by decide)⟩

/-- C5 witness: page limit 2 with 3 pages available; each page shows one item
with its card and one without. -/
theorem C5_witness_two_pages :
    Event.saveData ((List.range (min 2 3)).flatMap
        (fun d => batch (exampleWorld (some "3") [exampleItem, cardlessItem] true) (1 + d))) ∈
      main { numberOfPagesToScrape := 2, withDownloadingImages := true }
        (exampleWorld (some "3") [exampleItem, cardlessItem] true) ∧
    (List.range (min 2 3)).flatMap
        (fun d => batch (exampleWorld (some "3") [exampleItem, cardlessItem] true) (1 + d)) =
      (List.range (visits (main { numberOfPagesToScrape := 2, withDownloadingImages := true }
        (exampleWorld (some "3") [exampleItem, cardlessItem] true)))).flatMap
        (fun d => batch (exampleWorld (some "3") [exampleItem, cardlessItem] true) (1 + d)) :=
  have hmem := (C5_saved_products_are_page_batches_in_order
    { numberOfPagesToScrape := 2, withDownloadingImages := true }
    (exampleWorld (some "3") [exampleItem, cardlessItem] true)).2 3 (by decide) rfl rfl
    (fun _ _ _ => ⟨_, rfl⟩) (fun _ _ _ => rfl)
  ⟨hmem, ((C5_saved_products_are_page_batches_in_order
    { numberOfPagesToScrape := 2, withDownloadingImages := true }
    (exampleWorld (some "3") [exampleItem, cardlessItem] true)).1 _ hmem).1⟩

end Scraper
